import Mathlib

/-!
Verification of the SecurePy process-isolation and output-bounding supervisor.

The definitions in this file are shallow embeddings of the Python source:
  * `securepy/stdcapture.py` and `securepy/iocage.py` (LimitedStringIO, StdCapture/IOCage)
  * `securepy/sandbox.py` (Sandbox: cgroup setup, nsjail log parsing, exit-code normalization)
  * `securepy/restrictor.py` (Restrictor.execute)
  * `securepy/timing.py` (TimedFunction.run_timed)
  * `securepy/security.py` (full_copy / _mutable_copy)

Python machine-level details that the code relies on (CPython's `sys.getsizeof`
for strings, `multiprocessing.Connection.recv` blocking behaviour) are modelled
explicitly and documented at their definitions.
-/

namespace SecurePy

/-- Model of CPython's `sys.getsizeof` on `str` values, as called in
`LimitedStringIO.write` (stdcapture.py line 25 and iocage.py line 25).
On a 64-bit CPython build a compact ASCII string has object size
`49 + number of characters`; the repository's own tests
(`tests/test_stdcapture.py`) pin exactly these values (e.g. size 103 for
`"hello"` plus the empty stored value, size 122 for the four-write sequence).
All strings appearing in the spec's scenarios are ASCII. -/
def getsizeof (s : String) : Nat := 49 + s.length

/-- The `MemoryOverflow` exception payload (stdcapture.py / iocage.py lines 8–14):
it carries `used_memory` and `max_memory`. -/
structure MemoryOverflow where
  used_memory : Nat
  max_memory : Nat
  deriving DecidableEq, Repr

/-- State of a `LimitedStringIO` buffer: the configured `max_memory` and the
string currently stored (`getvalue()`). Both variants are constructed empty
(`LimitedStringIO(max_memory)` with no initial value). -/
structure LimitedBuf where
  max_memory : Nat
  value : String
  deriving DecidableEq, Repr

/-- `LimitedStringIO.write` from `securepy/stdcapture.py` lines 23–29:
`used_memory = sys.getsizeof(__s) + sys.getsizeof(self.getvalue())`;
if `used_memory < self.max_memory` (strict) the chunk is appended and the
number of characters written is returned (`io.StringIO.write` returns
`len(__s)`); otherwise `MemoryOverflow(used_memory, max_memory)` is raised
before anything is appended. -/
def stdcaptureWrite (b : LimitedBuf) (s : String) :
    Except MemoryOverflow (LimitedBuf × Nat) :=
  let used_memory := getsizeof s + getsizeof b.value
  if used_memory < b.max_memory then
    .ok ({ b with value := b.value ++ s }, s.length)
  else
    .error ⟨used_memory, b.max_memory⟩

/-- `LimitedStringIO.write` from `securepy/iocage.py` lines 23–29: identical to
the stdcapture variant except the guard is `used_memory <= self.max_memory`
(non-strict), so a write landing exactly on the limit succeeds. -/
def iocageWrite (b : LimitedBuf) (s : String) :
    Except MemoryOverflow (LimitedBuf × Nat) :=
  let used_memory := getsizeof s + getsizeof b.value
  if used_memory ≤ b.max_memory then
    .ok ({ b with value := b.value ++ s }, s.length)
  else
    .error ⟨used_memory, b.max_memory⟩

/-- One step of a write sequence: a successful write advances the buffer, and a
write that raises `MemoryOverflow` leaves the buffer exactly as it was (the
Python `write` raises before calling `super().write`, so `getvalue()` is
unchanged). -/
def stepWrite (w : LimitedBuf → String → Except MemoryOverflow (LimitedBuf × Nat))
    (b : LimitedBuf) (s : String) : LimitedBuf :=
  match w b s with
  | .ok (b2, _) => b2
  | .error _ => b

/-- Apply a whole sequence of writes with `stepWrite`. -/
def runWrites (w : LimitedBuf → String → Except MemoryOverflow (LimitedBuf × Nat))
    (b : LimitedBuf) (ss : List String) : LimitedBuf :=
  ss.foldl (stepWrite w) b

/-- A fresh buffer of capacity `m`, as created by `LimitedStringIO(m)`. -/
def emptyBuf (m : Nat) : LimitedBuf := ⟨m, ""⟩

/-- Exit-code normalization from `Sandbox.execute` (`securepy/sandbox.py`
line 140): `returncode = -nsjail.returncode + 128 if nsjail.returncode < 0
else nsjail.returncode`. -/
def normalizeReturncode (r : Int) : Int :=
  if r < 0 then -r + 128 else r

/-- A write step preserves the capacity field, and either leaves the buffer
untouched (rejection) or lands on a stored length at least 98 below the
capacity. Shared by both write variants. -/
def StepBound (w : LimitedBuf → String → Except MemoryOverflow (LimitedBuf × Nat)) : Prop :=
  ∀ b s, (stepWrite w b s).max_memory = b.max_memory ∧
    (stepWrite w b s = b ∨ (stepWrite w b s).value.length + 98 ≤ b.max_memory)

theorem stepBound_stdcaptureWrite : StepBound stdcaptureWrite := by
  intro b s
  unfold stepWrite stdcaptureWrite getsizeof
  dsimp only
  split
  case h_1 x heq =>
    split at heq
    case isTrue h =>
      cases heq
      refine ⟨rfl, Or.inr ?_⟩
      simp only [String.length_append]
      omega
    case isFalse h => cases heq
  case h_2 x heq =>
    split at heq
    case isTrue h => cases heq
    case isFalse h => exact ⟨rfl, Or.inl rfl⟩

theorem stepBound_iocageWrite : StepBound iocageWrite := by
  intro b s
  unfold stepWrite iocageWrite getsizeof
  dsimp only
  split
  case h_1 x heq =>
    split at heq
    case isTrue h =>
      cases heq
      refine ⟨rfl, Or.inr ?_⟩
      simp only [String.length_append]
      omega
    case isFalse h => cases heq
  case h_2 x heq =>
    split at heq
    case isTrue h => cases heq
    case isFalse h => exact ⟨rfl, Or.inl rfl⟩

theorem runWrites_inv
    (w : LimitedBuf → String → Except MemoryOverflow (LimitedBuf × Nat))
    (hw : StepBound w) :
    ∀ (ss : List String) (b : LimitedBuf), b.value.length ≤ b.max_memory →
      (runWrites w b ss).max_memory = b.max_memory ∧
      (runWrites w b ss).value.length ≤ b.max_memory := by
  intro ss
  induction ss with
  | nil => intro b hb; exact ⟨rfl, hb⟩
  | cons s ss ih =>
    intro b hb
    have hstep := hw b s
    have hlen : (stepWrite w b s).value.length ≤ (stepWrite w b s).max_memory := by
      rcases hstep.2 with h | h
      · rw [h]; exact hb
      · rw [hstep.1]; omega
    have := ih (stepWrite w b s) hlen
    show (runWrites w (stepWrite w b s) ss).max_memory = b.max_memory ∧
      (runWrites w (stepWrite w b s) ss).value.length ≤ b.max_memory
    rw [this.1, hstep.1]
    exact ⟨rfl, by have h2 := this.2; rw [hstep.1] at h2; exact h2⟩

/-- C1: the claim states that a bounded-buffer write fails with
`MemoryOverflow(projected, capacity)` exactly when the projected size is
strictly greater than the capacity, so a write whose projected size equals the
capacity succeeds. The iocage variant (`used_memory <= max_memory`) behaves
exactly so, and the repository's own test (`tests/test_stdcapture.py`,
`test_valid_limits`, case "Exactly at the limit": `LimitedStringIO(103)`
written `"hello"`, projected size 103) requires the at-limit write to succeed;
but `securepy/stdcapture.py` uses the strict guard `used_memory <
self.max_memory`, so the very write its own test calls valid is rejected.
This theorem evaluates both variants at that input. -/
theorem stdcaptureWrite_rejects_at_limit_against_own_test :
    stdcaptureWrite (emptyBuf 103) "hello" = .error ⟨103, 103⟩ ∧
    iocageWrite (emptyBuf 103) "hello" = .ok (⟨103, "hello"⟩, 5) :=
  ⟨rfl, rfl⟩

/-- C2 counterexample: the claimed scenario uses `capacity = 10` and expects
the 5-character write `"hello"` to succeed; on the code (either variant) the
projected size is `sys.getsizeof("hello") + sys.getsizeof("") = 54 + 49 = 103
> 10`, so the very first write raises `MemoryOverflow(103, 10)` and the stored
value stays empty. -/
theorem capacity10_hello_write_fails :
    iocageWrite (emptyBuf 10) "hello" = .error ⟨103, 10⟩ ∧
    stdcaptureWrite (emptyBuf 10) "hello" = .error ⟨103, 10⟩ ∧
    stepWrite iocageWrite (emptyBuf 10) "hello" = emptyBuf 10 :=
  ⟨rfl, rfl, rfl⟩

/-- C2 amended: the scenario holds once sizes are measured the way the code
measures them (CPython `sys.getsizeof`, i.e. 49 + character count for ASCII)
and the capacity is set between the two projected sizes: with capacity 108,
writing `"hello"` succeeds (projected size 103) and stores `"hello"`, and the
subsequent write of `"world!"` fails with `MemoryOverflow(used=109, max=108)`
leaving `"hello"` stored — identically in both variants. -/
theorem capacity108_scenario :
    stdcaptureWrite (emptyBuf 108) "hello" = .ok (⟨108, "hello"⟩, 5) ∧
    iocageWrite (emptyBuf 108) "hello" = .ok (⟨108, "hello"⟩, 5) ∧
    stdcaptureWrite ⟨108, "hello"⟩ "world!" = .error ⟨109, 108⟩ ∧
    iocageWrite ⟨108, "hello"⟩ "world!" = .error ⟨109, 108⟩ ∧
    stepWrite stdcaptureWrite ⟨108, "hello"⟩ "world!" = ⟨108, "hello"⟩ ∧
    stepWrite iocageWrite ⟨108, "hello"⟩ "world!" = ⟨108, "hello"⟩ :=
  ⟨rfl, rfl, rfl, rfl, rfl, rfl⟩

/-- C3: a rejected write leaves the stored contents exactly as they were (no
partial data committed), and starting from a fresh buffer of any capacity, any
sequence of writes leaves the stored length within the capacity — for both
write variants. -/
theorem write_rejection_and_capacity_invariant :
    (∀ b s e, stdcaptureWrite b s = .error e → stepWrite stdcaptureWrite b s = b) ∧
    (∀ b s e, iocageWrite b s = .error e → stepWrite iocageWrite b s = b) ∧
    (∀ (m : Nat) (ss : List String),
      (runWrites stdcaptureWrite (emptyBuf m) ss).value.length ≤ m) ∧
    (∀ (m : Nat) (ss : List String),
      (runWrites iocageWrite (emptyBuf m) ss).value.length ≤ m) := by
  refine ⟨?_, ?_, ?_, ?_⟩
  · intro b s e h; unfold stepWrite; rw [h]
  · intro b s e h; unfold stepWrite; rw [h]
  · intro m ss
    exact (runWrites_inv stdcaptureWrite stepBound_stdcaptureWrite ss (emptyBuf m)
      (by simp [emptyBuf])).2
  · intro m ss
    exact (runWrites_inv iocageWrite stepBound_iocageWrite ss (emptyBuf m)
      (by simp [emptyBuf])).2

/-- C3 witness: the invariant theorem applied at concrete inputs — the
rejected write `"hello"` on a capacity-10 buffer leaves it untouched, and the
four-write test sequence on a capacity-120 buffer stays within 120. -/
theorem write_rejection_and_capacity_invariant_witness :
    stepWrite stdcaptureWrite (emptyBuf 10) "hello" = emptyBuf 10 ∧
    (runWrites iocageWrite (emptyBuf 120) ["hello", "hey there", "hi", "itsdrike"]).value.length ≤ 120 :=
  ⟨write_rejection_and_capacity_invariant.1 (emptyBuf 10) "hello" ⟨103, 10⟩ rfl,
   write_rejection_and_capacity_invariant.2.2.2 120 ["hello", "hey there", "hi", "itsdrike"]⟩

/-- C4: `Sandbox.execute` exit-code normalization — a raw return code `-N`
(termination by signal `N`) is reported as `128 + N`, a nonnegative raw code
is reported unchanged, and signal 9 yields 137. -/
theorem returncode_normalization :
    (∀ N : Int, 0 < N → normalizeReturncode (-N) = 128 + N) ∧
    (∀ r : Int, 0 ≤ r → normalizeReturncode r = r) ∧
    normalizeReturncode (-9) = 137 := by
  refine ⟨?_, ?_, rfl⟩
  · intro N hN
    unfold normalizeReturncode
    rw [if_pos (by omega)]
    omega
  · intro r hr
    unfold normalizeReturncode
    rw [if_neg (by omega)]

/-- C4 witness: normalization evaluated at signal 9 and at a normal exit 0. -/
theorem returncode_normalization_witness :
    normalizeReturncode (-9) = 128 + 9 ∧ normalizeReturncode 0 = 0 :=
  ⟨returncode_normalization.1 9 (by norm_num),
   returncode_normalization.2.1 0 (by norm_num)⟩

/-- The `subprocess.CompletedProcess` fields the supervisors fill in:
`returncode`, `stdout`, `stderr` (args omitted — never inspected by callers in
the claims). -/
structure CompletedProcess where
  returncode : Int
  stdout : Option String
  stderr : Option String
  deriving DecidableEq, Repr

/-- Outcome of `process.communicate(timeout=self.time_limit)` inside
`Restrictor.execute` (`securepy/restrictor.py` lines 69–77): either the
captured streams, or the `MemoryOverflow` raised by the reader thread, or
`subprocess.TimeoutExpired`. -/
inductive CommResult where
  | ok (stdout stderr : String)
  | memOverflow (used_memory max_memory : Nat)
  | timeoutExpired
  deriving DecidableEq, Repr

/-- Stands for `str(e)` of the raised `MemoryOverflow` (the exact message text
is irrelevant to the claims). -/
def memOverflowStr (used_memory max_memory : Nat) : String :=
  "Maximum STDOUT/STDERR memory surpassed (" ++ toString used_memory ++ " > "
    ++ toString max_memory ++ ")"

/-- Stands for `str(e)` of the raised `subprocess.TimeoutExpired`. -/
def timeoutExpiredStr : String := "TimeoutExpired"

/-- `Restrictor.execute` (`securepy/restrictor.py` lines 54–77), from the
`communicate` call on: `MemoryOverflow` and `TimeoutExpired` both yield
`CompletedProcess(args, returncode=-1, stdout=None, stderr=str(e))`; on the
success path the code returns `CompletedProcess(args, returncode=1, ...)` —
the literal constant 1, never reading the worker's own exit code.
`workerReturncode` is the subprocess's actual exit code (`process.returncode`),
carried in the model to state that the code ignores it. -/
def restrictorExecute (comm : CommResult) (workerReturncode : Int) : CompletedProcess :=
  match comm with
  | .memOverflow u m => { returncode := -1, stdout := none, stderr := some (memOverflowStr u m) }
  | .timeoutExpired => { returncode := -1, stdout := none, stderr := some timeoutExpiredStr }
  | .ok out err => { returncode := 1, stdout := some out, stderr := some err }

/-- How the `subprocess.Popen` launch and run of nsjail went inside
`Sandbox.execute` (`securepy/sandbox.py` lines 125–150): either the spawn
raised `ValueError` (embedded null byte), or the process ran and finished with
raw return code `rawReturncode` and the streams read by `read_process_std`. -/
inductive SandboxRun where
  | ok (rawReturncode : Int) (stdout stderr : String)
  | valueError
  deriving DecidableEq, Repr

/-- `Sandbox.execute` restricted to the fields of the returned
`CompletedProcess` (`securepy/sandbox.py` lines 125–150): `ValueError` at
spawn returns `CompletedProcess(args, -1, "ValueError: embedded null byte",
None)`; otherwise the returncode is the normalized raw code and the captured
streams are passed through. (The log-file handling in between does not touch
these fields.) -/
def sandboxExecute (run : SandboxRun) : CompletedProcess :=
  match run with
  | .valueError =>
      { returncode := -1, stdout := some "ValueError: embedded null byte", stderr := none }
  | .ok raw out err =>
      { returncode := normalizeReturncode raw, stdout := some out, stderr := some err }

/-- C5 counterexample: a Restrictor attempt that completes with no overflow
and no timeout, whose worker subprocess actually exited with code 0, surfaces
returncode 1 — not the worker's (normalized) exit code 0. -/
theorem restrictor_surfaces_constant_one :
    (restrictorExecute (.ok "" "") 0).returncode = 1 ∧
    normalizeReturncode 0 = 0 ∧ (1 : Int) ≠ 0 :=
  ⟨rfl, rfl, by decide⟩

/-- C5 amended: only `Sandbox.execute` surfaces the worker's normalized exit
code on attempts that run; its sentinel -1 marks the launch failure
(`ValueError`: embedded null byte). `Restrictor.execute` surfaces the constant
1 on every attempt that completes without overflow/timeout, and its
sentinel -1 marks exactly the overflow and timeout conditions. -/
theorem surfaced_exit_codes :
    (∀ (raw : Int) (out err : String),
      (sandboxExecute (.ok raw out err)).returncode = normalizeReturncode raw) ∧
    (sandboxExecute .valueError).returncode = -1 ∧
    (∀ (out err : String) (rc : Int), (restrictorExecute (.ok out err) rc).returncode = 1) ∧
    (∀ (u m : Nat) (rc : Int), (restrictorExecute (.memOverflow u m) rc).returncode = -1) ∧
    (∀ rc : Int, (restrictorExecute .timeoutExpired rc).returncode = -1) :=
  ⟨fun _ _ _ => rfl, rfl, fun _ _ _ => rfl, fun _ _ _ => rfl, fun _ => rfl⟩

/-- The tagged pair sent over the multiprocessing pipe by
`TimedFunction._capture_return` (`securepy/timing.py` lines 68–89):
`("ret", value)` on normal return, `("exc", exception)` when the function
raised. Payloads are abstracted to strings. -/
inductive RetInfo where
  | ret (v : String)
  | exc (e : String)
  deriving DecidableEq, Repr

/-- `TimedFunction._capture_return` itself: run the function, catch any
`BaseException`, and tag the result. The wrapper (`_capture_wrapper`,
lines 51–66) then performs exactly one `self.parent.send` of this value. -/
def capture_return (funcResult : Except String String) : RetInfo :=
  match funcResult with
  | .ok v => .ret v
  | .error e => .exc e

/-- How the worker process stands when `proc.join(self.time_limit)` returns in
`run_timed` (`securepy/timing.py` lines 166–180): it either terminated having
sent its one tagged message, terminated without ever sending (killed by an
OS signal before the send, `os._exit` inside the payload, or the `send` call
itself raising), or is still alive at the deadline. -/
inductive WorkerExit where
  | finishedSent (m : RetInfo)
  | finishedSilent
  | stillRunning
  deriving DecidableEq, Repr

/-- What the caller of `run_timed` observes. -/
inductive RunResult where
  | value (v : String)
  | timedFunctionError (e : String)
  | timeoutError
  | blockedForever
  deriving DecidableEq, Repr

/-- `TimedFunction.run_timed` (`securepy/timing.py` lines 161–180) after
`proc.join(self.time_limit)`:
if `proc.is_alive()` the worker is killed, reaped and `TimeoutError` raised;
otherwise the caller runs `ret_info = self.child.recv()` and decodes it with
`_value_return` (lines 91–121: tag "ret" returns the value, tag "exc" raises
`TimedFunctionError`). Modelled from `multiprocessing.Connection` semantics:
`recv()` blocks until a message arrives or every handle of the sending end is
closed; `run_timed` keeps its own copy of the sending end `self.parent` open
and never closes it, so when the worker died without sending, `recv()` never
returns — modelled as `blockedForever`. -/
def run_timed (w : WorkerExit) : RunResult :=
  match w with
  | .stillRunning => .timeoutError
  | .finishedSent (.ret v) => .value v
  | .finishedSent (.exc e) => .timedFunctionError e
  | .finishedSilent => .blockedForever

/-- C6: contrary to the claim, a worker that terminates without having sent
its tagged message does NOT give the caller a channel-closed outcome —
`run_timed` blocks forever on `self.child.recv()`. The other exit paths do
terminate: deadline expiry raises `TimeoutError`, and a worker that runs its
wrapper to completion always sends exactly one tagged message and never
blocks the caller. -/
theorem run_timed_blocks_on_silent_worker :
    run_timed .finishedSilent = .blockedForever ∧
    run_timed .stillRunning = .timeoutError ∧
    run_timed (.finishedSent (.ret "v")) = .value "v" ∧
    run_timed (.finishedSent (.exc "e")) = .timedFunctionError "e" ∧
    (∀ fr : Except String String,
      run_timed (.finishedSent (capture_return fr)) ≠ .blockedForever) := by
  refine ⟨rfl, rfl, rfl, rfl, ?_⟩
  intro fr
  cases fr <;> simp [capture_return, run_timed]

/-- Outcome of one filesystem operation in `Sandbox._construct_cgroups`
(`securepy/sandbox.py` lines 53–73): success, `PermissionError`, or some
other `OSError`. -/
inductive FsWrite where
  | ok
  | permissionError
  | osError (code : Nat)
  deriving DecidableEq, Repr

/-- The warning printed when setting the swap limit fails with
`PermissionError` (two adjacent string literals in the source, concatenated
with no separator — reproduced verbatim). -/
def swapWarning : String :=
  "Failed to set memory swap limit for the cgroup"
    ++ "Make sure swap memory is disabled on the system. "

/-- `Sandbox._construct_cgroups` (`securepy/sandbox.py` lines 53–73): `mkdir`
then the write of `memory.limit_in_bytes` run unguarded (any failure
propagates to the caller); the write of `memory.memsw.limit_in_bytes` is
wrapped in `try/except PermissionError`, which prints a warning and carries
on — any non-permission failure still propagates. Returns the list of printed
warnings on success. -/
def construct_cgroups (mkdirRes memWrite swapWrite : FsWrite) :
    Except FsWrite (List String) :=
  match mkdirRes with
  | .ok =>
    match memWrite with
    | .ok =>
      match swapWrite with
      | .ok => .ok []
      | .permissionError => .ok [swapWarning]
      | .osError c => .error (.osError c)
    | e => .error e
  | e => .error e

/-- C7: a `PermissionError` on the swap-ceiling write is caught and reported
as a warning with setup still succeeding, while any failure of the mandatory
memory-ceiling write propagates and setup fails. -/
theorem cgroup_swap_best_effort_memory_mandatory :
    construct_cgroups .ok .ok .permissionError = .ok [swapWarning] ∧
    (∀ e : FsWrite, e ≠ .ok → ∀ sw : FsWrite, construct_cgroups .ok e sw = .error e) ∧
    construct_cgroups .ok .ok .ok = .ok [] := by
  refine ⟨rfl, ?_, rfl⟩
  intro e he sw
  cases e with
  | ok => exact absurd rfl he
  | permissionError => rfl
  | osError c => rfl

/-- C7 witness: the mandatory-write branch applied at a concrete failing
memory-ceiling write. -/
theorem cgroup_swap_best_effort_memory_mandatory_witness :
    construct_cgroups .ok .permissionError .ok = .error .permissionError :=
  cgroup_swap_best_effort_memory_mandatory.2.1 .permissionError (by decide) .ok

/-- The level characters admitted by `NSJAIL_LOG_PATTERN`
(`securepy/sandbox.py` lines 23–25): the alternation `(I)|[DWEF]`. -/
def logLevels : List Char := ['I', 'D', 'W', 'E', 'F']

/-- Model of Python's `str.startswith`. -/
def strStartsWith (s p : String) : Bool := p.toList.isPrefixOf s.toList

/-- The tail of `NSJAIL_LOG_PATTERN`: ` ?(?P<msg>.+)` — a greedy optional
space followed by the message group, which must be non-empty and runs to the
end of the line (`fullmatch`). When the remainder is a single space the
optional space backtracks to empty and the space itself becomes the message. -/
def optSpaceMsg : List Char → Option String
  | [] => Option.none
  | [' '] => some " "
  | ' ' :: rest => some (String.mk rest)
  | cs => some (String.mk cs)

/-- The `.+?:\d+ ` part of the `func` group: a lazy scan for the earliest
colon that is followed by a maximal non-empty digit run and then a space
(shorter digit runs end in a digit, so only the maximal run can precede the
space). A candidate whose continuation (`optSpaceMsg`) fails backtracks into
the lazy scan. -/
def funcScan : List Char → Option String
  | [] => Option.none
  | ':' :: rest =>
    (match rest.span Char.isDigit with
     | (ds, rest1) =>
       if ds.isEmpty then funcScan rest
       else
         match rest1 with
         | ' ' :: rest2 =>
           (match optSpaceMsg rest2 with
            | some m => some m
            | Option.none => funcScan rest)
         | _ => funcScan rest)
  | _ :: rest => funcScan rest

/-- The conditional `func` group `\[\d+\] .+?:\d+ ` required for non-`I`
levels: a bracketed PID, a space, then the lazy function/line part (the first
character after the space is always absorbed by `.+?`, which needs at least
one character). -/
def matchFunc : List Char → Option String
  | '[' :: rest =>
    (match rest.span Char.isDigit with
     | (ds, rest1) =>
       if ds.isEmpty then Option.none
       else
         match rest1 with
         | ']' :: ' ' :: _ :: rest2 => funcScan rest2
         | _ => Option.none)
  | _ => Option.none

/-- What must follow the closing bracket of the timestamp: `(?(2)|...)` —
nothing extra for level `I`, the `func` group otherwise, then the optional
space and the message. -/
def afterTs (lvl : Char) (cs : List Char) : Option String :=
  if lvl = 'I' then optSpaceMsg cs else matchFunc cs

/-- The lazy timestamp `\[.+?\]`: scan for the earliest closing bracket whose
continuation matches; a bracket whose continuation fails is absorbed into the
timestamp and the scan goes on. The first timestamp character was already
consumed by the caller (the `.+` needs at least one). -/
def tsScan (lvl : Char) : List Char → Option String
  | [] => Option.none
  | ']' :: rest =>
    (match afterTs lvl rest with
     | some m => some m
     | Option.none => tsScan lvl rest)
  | _ :: rest => tsScan lvl rest

/-- `NSJAIL_LOG_PATTERN.fullmatch(line)` (`securepy/sandbox.py` lines 23–25),
returning the captured `level` and `msg` groups:
`\[(?P<level>(I)|[DWEF])\]\[.+?\](?(2)|(?P<func>\[\d+\] .+?:\d+ )) ?(?P<msg>.+)`.
Lines handed to `fullmatch` come from `splitlines`, so they contain no
newline and `.` behaves as "any character". -/
def matchLogLine (line : String) : Option (Char × String) :=
  match line.toList with
  | '[' :: lvl :: ']' :: '[' :: _ :: rest =>
    if lvl ∈ logLevels then (tsScan lvl rest).map (fun m => (lvl, m)) else Option.none
  | _ => Option.none

/-- The blacklist of known-noisy messages (`LOG_BLACKLIST`,
`securepy/sandbox.py` line 26). -/
def LOG_BLACKLIST : List String := ["Process will be "]

/-- What `Sandbox._get_nsjail_log` does with one log line: which `print` call
it executes, if any. `parseFailure` models the
`print(f"Failed to parse log line ...")`+`continue` path; `dropped` models a
`continue` (blacklisted message) or the silent fall-through of an `I` line
without the `pid=` marker; the remaining constructors model the
`DEBUG:`/`INFO:`/`WARNING:`/`ERROR:` prints. -/
inductive LogAction where
  | parseFailure (line : String)
  | dropped
  | debug (msg : String)
  | info (msg : String)
  | warning (msg : String)
  | error (msg : String)
  deriving DecidableEq, Repr

/-- The per-line body of the loop in `Sandbox._get_nsjail_log`
(`securepy/sandbox.py` lines 75–98). -/
def classifyLogLine (line : String) : LogAction :=
  match matchLogLine line with
  | Option.none => .parseFailure line
  | some (lvl, msg) =>
    if LOG_BLACKLIST.any (fun s => strStartsWith msg s) then .dropped
    else if lvl = 'D' then .debug msg
    else if lvl = 'I' then
      (if strStartsWith msg "pid=" then .info msg else .dropped)
    else if lvl = 'W' then .warning msg
    else .error msg

/-- `Sandbox._get_nsjail_log` over the whole log: a plain loop over the
lines, each handled independently. -/
def get_nsjail_log (lines : List String) : List LogAction :=
  lines.map classifyLogLine

/-- C8: the log translator processes each line independently; a line the
pattern rejects becomes a (non-fatal) parse failure; a matched line whose
message starts with a blacklisted string is dropped; level `D` is emitted as
debug; level `I` is kept as info exactly when the message starts with
`pid=` and is dropped otherwise; level `W` is emitted as warning; any other
(matched) level is emitted as error. -/
theorem nsjail_log_translation :
    (∀ lines : List String, get_nsjail_log lines = lines.map classifyLogLine) ∧
    (∀ line, matchLogLine line = Option.none →
      classifyLogLine line = .parseFailure line) ∧
    (∀ line lvl msg, matchLogLine line = some (lvl, msg) →
      strStartsWith msg "Process will be " = true →
      classifyLogLine line = .dropped) ∧
    (∀ line msg, matchLogLine line = some ('D', msg) →
      strStartsWith msg "Process will be " = false →
      classifyLogLine line = .debug msg) ∧
    (∀ line msg, matchLogLine line = some ('I', msg) →
      strStartsWith msg "Process will be " = false →
      classifyLogLine line =
        (if strStartsWith msg "pid=" then .info msg else .dropped)) ∧
    (∀ line msg, matchLogLine line = some ('W', msg) →
      strStartsWith msg "Process will be " = false →
      classifyLogLine line = .warning msg) ∧
    (∀ line lvl msg, matchLogLine line = some (lvl, msg) →
      strStartsWith msg "Process will be " = false →
      lvl ≠ 'D' → lvl ≠ 'I' → lvl ≠ 'W' →
      classifyLogLine line = .error msg) := by
  refine ⟨fun _ => rfl, ?_, ?_, ?_, ?_, ?_, ?_⟩
  · intro line h; unfold classifyLogLine; rw [h]
  · intro line lvl msg h hbl
    unfold classifyLogLine; rw [h]
    simp [LOG_BLACKLIST, hbl]
  · intro line msg h hbl
    unfold classifyLogLine; rw [h]
    simp [LOG_BLACKLIST, hbl]
  · intro line msg h hbl
    unfold classifyLogLine; rw [h]
    simp [LOG_BLACKLIST, hbl]
  · intro line msg h hbl
    unfold classifyLogLine; rw [h]
    simp [LOG_BLACKLIST, hbl]
  · intro line lvl msg h hbl hD hI hW
    unfold classifyLogLine; rw [h]
    simp [LOG_BLACKLIST, hbl, hD, hI, hW]

/-- C8 witness: the translation applied to five concrete log lines, one per
branch. -/
theorem nsjail_log_translation_witness :
    classifyLogLine "nonsense" = .parseFailure "nonsense" ∧
    classifyLogLine "[W][t][1] a.c:2 Process will be killed" = .dropped ∧
    classifyLogLine "[D][ts][22] f.c:10 opening" = .debug "opening" ∧
    classifyLogLine "[I][2021-07-21] pid=17 started" = .info "pid=17 started" ∧
    classifyLogLine "[I][2021-07-21] listening" = .dropped ∧
    classifyLogLine "[W][t][1] a.c:2 low memory" = .warning "low memory" ∧
    classifyLogLine "[F][t][3] x.c:9 fatal" = .error "fatal" := by
  refine ⟨nsjail_log_translation.2.1 "nonsense" rfl,
    nsjail_log_translation.2.2.1 "[W][t][1] a.c:2 Process will be killed" 'W'
      "Process will be killed" rfl rfl,
    nsjail_log_translation.2.2.2.1 "[D][ts][22] f.c:10 opening" "opening" rfl rfl,
    ?_, ?_,
    nsjail_log_translation.2.2.2.2.2.1 "[W][t][1] a.c:2 low memory" "low memory" rfl rfl,
    nsjail_log_translation.2.2.2.2.2.2 "[F][t][3] x.c:9 fatal" 'F' "fatal" rfl rfl
      (by decide) (by decide) (by decide)⟩
  · have h := nsjail_log_translation.2.2.2.2.1 "[I][2021-07-21] pid=17 started"
      "pid=17 started" rfl rfl
    rw [h]; rfl
  · have h := nsjail_log_translation.2.2.2.2.1 "[I][2021-07-21] listening"
      "listening" rfl rfl
    rw [h]; rfl

/-- Python values as far as `securepy/security.py`'s `full_copy` and
`_mutable_copy` inspect them: `None`, atoms (anything that is not a
`dict`/`list`/`set`/`tuple`; the `copyable` flag records whether `deepcopy`
can pickle it — e.g. modules cannot), and the four mutable container kinds
the fallback handles. -/
inductive PyVal where
  | pynone
  | atom (copyable : Bool) (id : Nat)
  | lst (xs : List PyVal)
  | tup (xs : List PyVal)
  | dct (xs : List (PyVal × PyVal))
  | setv (xs : List PyVal)

mutual

/-- Whether `copy.deepcopy` raises `TypeError` on the value: it does exactly
when an unpicklable atom occurs somewhere inside it. -/
def hasUncopyable : PyVal → Bool
  | .pynone => false
  | .atom c _ => !c
  | .lst xs => hasUncopyableList xs
  | .tup xs => hasUncopyableList xs
  | .dct xs => hasUncopyablePairs xs
  | .setv xs => hasUncopyableList xs

def hasUncopyableList : List PyVal → Bool
  | [] => false
  | x :: xs => hasUncopyable x || hasUncopyableList xs

def hasUncopyablePairs : List (PyVal × PyVal) → Bool
  | [] => false
  | (k, v) :: xs => hasUncopyable k || hasUncopyable v || hasUncopyablePairs xs

end

/-- Model of `copy.deepcopy` as used by `full_copy`
(`securepy/security.py` line 112): in a value semantics the deep copy of a
copyable value is the value itself; on unpicklable content it raises
`TypeError`. -/
def deepcopy (x : PyVal) : Except Unit PyVal :=
  if hasUncopyable x then .error () else .ok x

/-- The `isinstance(x, (dict, list, set, tuple))` test of `_mutable_copy`
(`securepy/security.py` lines 99–102). -/
def isContainer : PyVal → Bool
  | .lst _ => true
  | .tup _ => true
  | .dct _ => true
  | .setv _ => true
  | _ => false

mutual

/-- `full_copy` (`securepy/security.py` lines 105–139), translated branch by
branch. `try: return deepcopy(x) except TypeError:` then:
  * dict: a new dict with `_mutable_copy` applied to every value, returned
    after the loop;
  * list: `new_lst = []` and a loop whose body is
    `new_lst.append(_mutable_copy(element)); return new_lst` — the `return`
    sits INSIDE the loop (line 125), so a non-empty list yields a singleton
    after the first element; an empty list skips the loop, falls out of the
    `elif` chain and the function returns Python `None` (deepcopy never
    raises on an empty list, so that path is unreachable);
  * set: a new set of `_mutable_copy`-ed elements, returned after the loop;
  * tuple: a new tuple of `_mutable_copy`-ed elements, returned after the
    loop (`return new_tuple`, line 137) — unlike the list branch this one is
    a full element-wise copy;
  * anything else: `raise e` re-raises the `TypeError`. -/
def full_copy (x : PyVal) : Except Unit PyVal :=
  match deepcopy x with
  | .ok y => .ok y
  | .error u =>
    match x with
    | .dct xs => do
        let ys ← mutableCopyPairs xs
        return (.dct ys)
    | .lst [] => .ok .pynone
    | .lst (e0 :: _) => do
        let c ← mutable_copy e0
        return (.lst [c])
    | .setv xs => do
        let ys ← mutableCopyList xs
        return (.setv ys)
    | .tup xs => do
        let ys ← mutableCopyList xs
        return (.tup ys)
    | _ => .error u
termination_by (sizeOf x, 0)

/-- `_mutable_copy` (`securepy/security.py` lines 99–102): recurse with
`full_copy` on the four container kinds, return the value itself otherwise. -/
def mutable_copy (x : PyVal) : Except Unit PyVal :=
  match x with
  | .dct xs => full_copy (.dct xs)
  | .lst xs => full_copy (.lst xs)
  | .setv xs => full_copy (.setv xs)
  | .tup xs => full_copy (.tup xs)
  | _ => .ok x
termination_by (sizeOf x, 1)

/-- `_mutable_copy` mapped over the elements of a list/set. -/
def mutableCopyList (xs : List PyVal) : Except Unit (List PyVal) :=
  match xs with
  | [] => .ok []
  | e :: rest => do
      let c ← mutable_copy e
      let cs ← mutableCopyList rest
      return (c :: cs)
termination_by (sizeOf xs, 1)

/-- `_mutable_copy` mapped over the values of a dict (keys are kept as-is,
matching the source's `new_dct[key] = _mutable_copy(value)`). -/
def mutableCopyPairs (xs : List (PyVal × PyVal)) : Except Unit (List (PyVal × PyVal)) :=
  match xs with
  | [] => .ok []
  | (k, v) :: rest => do
      let c ← mutable_copy v
      let cs ← mutableCopyPairs rest
      return ((k, c) :: cs)
termination_by (sizeOf xs, 1)

end

mutual

theorem full_copy_isOk (x : PyVal) (hx : isContainer x = true) :
    ∃ y, full_copy x = .ok y := by
  cases hdc : deepcopy x with
  | ok y => exact ⟨y, by unfold full_copy; rw [hdc]⟩
  | error u =>
    cases u
    cases x with
    | pynone => simp [isContainer] at hx
    | atom c i => simp [isContainer] at hx
    | lst xs =>
      cases xs with
      | nil => exact ⟨.pynone, by unfold full_copy; rw [hdc]⟩
      | cons e0 rest =>
        obtain ⟨c, hc⟩ := mutable_copy_isOk e0
        exact ⟨.lst [c], by unfold full_copy; rw [hdc]; simp [hc]⟩
    | tup xs =>
      obtain ⟨ys, hys⟩ := mutableCopyList_isOk xs
      exact ⟨.tup ys, by unfold full_copy; rw [hdc]; simp [hys]⟩
    | dct xs =>
      obtain ⟨ys, hys⟩ := mutableCopyPairs_isOk xs
      exact ⟨.dct ys, by unfold full_copy; rw [hdc]; simp [hys]⟩
    | setv xs =>
      obtain ⟨ys, hys⟩ := mutableCopyList_isOk xs
      exact ⟨.setv ys, by unfold full_copy; rw [hdc]; simp [hys]⟩
termination_by (sizeOf x, 0)

theorem mutable_copy_isOk (x : PyVal) : ∃ y, mutable_copy x = .ok y := by
  cases x with
  | pynone => exact ⟨.pynone, by simp [mutable_copy]⟩
  | atom c i => exact ⟨.atom c i, by simp [mutable_copy]⟩
  | lst xs => exact (by unfold mutable_copy; exact full_copy_isOk (.lst xs) rfl)
  | tup xs => exact (by unfold mutable_copy; exact full_copy_isOk (.tup xs) rfl)
  | dct xs => exact (by unfold mutable_copy; exact full_copy_isOk (.dct xs) rfl)
  | setv xs => exact (by unfold mutable_copy; exact full_copy_isOk (.setv xs) rfl)
termination_by (sizeOf x, 1)

theorem mutableCopyList_isOk (xs : List PyVal) : ∃ ys, mutableCopyList xs = .ok ys := by
  match xs with
  | [] => exact ⟨[], by simp [mutableCopyList]⟩
  | e :: rest =>
    obtain ⟨c, hc⟩ := mutable_copy_isOk e
    obtain ⟨cs, hcs⟩ := mutableCopyList_isOk rest
    exact ⟨c :: cs, by unfold mutableCopyList; rw [hc, hcs]; rfl⟩
termination_by (sizeOf xs, 1)

theorem mutableCopyPairs_isOk (xs : List (PyVal × PyVal)) :
    ∃ ys, mutableCopyPairs xs = .ok ys := by
  match xs with
  | [] => exact ⟨[], by simp [mutableCopyPairs]⟩
  | (k, v) :: rest =>
    obtain ⟨c, hc⟩ := mutable_copy_isOk v
    obtain ⟨cs, hcs⟩ := mutableCopyPairs_isOk rest
    exact ⟨(k, c) :: cs, by unfold mutableCopyPairs; rw [hc, hcs]; rfl⟩
termination_by (sizeOf xs, 1)

end

/-- C9: for every list with at least two elements on which `deepcopy` raises
`TypeError`, `full_copy` returns a singleton list holding only the
`_mutable_copy` of the first element — not an element-wise copy of the whole
list (the result's length 1 differs from the input's). -/
theorem full_copy_list_early_return (e1 e2 : PyVal) (rest : List PyVal)
    (h : deepcopy (.lst (e1 :: e2 :: rest)) = .error ()) :
    ∃ c, mutable_copy e1 = .ok c ∧
      full_copy (.lst (e1 :: e2 :: rest)) = .ok (.lst [c]) ∧
      (1 : Nat) ≠ (e1 :: e2 :: rest).length := by
  obtain ⟨c, hc⟩ := mutable_copy_isOk e1
  refine ⟨c, hc, ?_, by simp⟩
  unfold full_copy
  rw [h]
  simp [hc]

/-- C9 witness: the two-element list `[unpicklable_atom, plain_atom]` — its
deepcopy raises, and `full_copy` returns `[unpicklable_atom]` only. -/
theorem full_copy_list_early_return_witness :
    ∃ c, mutable_copy (.atom false 0) = .ok c ∧
      full_copy (.lst [.atom false 0, .atom true 1]) = .ok (.lst [c]) ∧
      (1 : Nat) ≠ ([PyVal.atom false 0, PyVal.atom true 1]).length :=
  full_copy_list_early_return (.atom false 0) (.atom true 1) [] rfl

/-- A process-global standard-stream handle (`sys.stdout` / `sys.stderr` /
`sys.stdin`): either a real console stream or some `StringIO` instance,
distinguished by identity. -/
inductive StdHandle where
  | realStd (id : Nat)
  | stringIOBuf (id : Nat)
  deriving DecidableEq, Repr

/-- The `isinstance(h, StringIO)` test used by `override_std`
(`LimitedStringIO` is a `StringIO` subclass, so capturing buffers test
true). -/
def StdHandle.isStringIOInst : StdHandle → Bool
  | .stringIOBuf _ => true
  | .realStd _ => false

/-- The process-global `sys.stdout`, `sys.stderr`, `sys.stdin` handles. -/
structure SysStd where
  stdout : StdHandle
  stderr : StdHandle
  stdin : StdHandle
  deriving DecidableEq, Repr

/-- The identities of one capture instance's own funnels
(`self.capturing_stdout` / `self.capturing_stderr`, resp.
`self.stdout_funnel` / `self.stderr_funnel`). -/
structure CaptureIds where
  outId : Nat
  errId : Nat
  deriving DecidableEq, Repr

/-- `StdCapture.override_std` (`securepy/stdcapture.py` lines 156–164):
`sys.stdout` is replaced by this instance's capturing buffer only when it is
not already a `StringIO` instance, and likewise for `sys.stderr`;
`sys.stdin` is untouched. -/
def override_std (c : CaptureIds) (s : SysStd) : SysStd :=
  { stdout := if s.stdout.isStringIOInst then s.stdout else .stringIOBuf c.outId,
    stderr := if s.stderr.isStringIOInst then s.stderr else .stringIOBuf c.errId,
    stdin := s.stdin }

/-- Python truthiness of the optional `self.stdin` string (`and self.stdin`:
`None` and the empty string are falsy). -/
def pyTruthy : Option String → Bool
  | Option.none => false
  | some s => !s.isEmpty

/-- `IOCage.override_std` (`securepy/iocage.py` lines 180–190): same
already-a-StringIO guard on each stream, additionally gated by the
`enable_stdout` / `enable_stderr` flags, and `sys.stdin` replaced by a fresh
`StringIO(self.stdin)` when `self.stdin` is truthy. -/
def iocage_override_std (c : CaptureIds) (enable_stdout enable_stderr : Bool)
    (stdinStr : Option String) (stdinFreshId : Nat) (s : SysStd) : SysStd :=
  { stdout := if !s.stdout.isStringIOInst && enable_stdout then .stringIOBuf c.outId else s.stdout,
    stderr := if !s.stderr.isStringIOInst && enable_stderr then .stringIOBuf c.errId else s.stderr,
    stdin := if !s.stdin.isStringIOInst && pyTruthy stdinStr then .stringIOBuf stdinFreshId else s.stdin }

/-- One `print`/`write` of `text` through a stream handle: appended to the
`StringIO` buffer the handle names (the store maps buffer identities to their
contents); output to a real console stream leaves every buffer unchanged. -/
def writeHandle (h : StdHandle) (st : Nat → String) (text : String) : Nat → String :=
  match h with
  | .stringIOBuf i => fun j => if j = i then st j ++ text else st j
  | .realStd _ => st

/-- Run a sequence of stdout writes issued inside the capture scope against
whatever handle `sys.stdout` currently holds. -/
def runPrints (s : SysStd) (st : Nat → String) (outs : List String) : Nat → String :=
  outs.foldl (writeHandle s.stdout) st

/-- Concatenation of a list of written chunks. -/
def concatAll : List String → String
  | [] => ""
  | t :: rest => t ++ concatAll rest

theorem runPrints_strio (j : Nat) (s : SysStd) (h : s.stdout = .stringIOBuf j) :
    ∀ (outs : List String) (st : Nat → String),
      runPrints s st outs j = st j ++ concatAll outs ∧
      (∀ i, i ≠ j → runPrints s st outs i = st i) := by
  intro outs
  induction outs with
  | nil =>
    intro st
    constructor
    · show st j = st j ++ concatAll []
      simp [concatAll]
    · intro i hi; rfl
  | cons t outs ih =>
    intro st
    have step : runPrints s st (t :: outs) = runPrints s (writeHandle s.stdout st t) outs := rfl
    have hw : writeHandle s.stdout st t = fun i => if i = j then st i ++ t else st i := by
      rw [h]; rfl
    constructor
    · rw [step, (ih (writeHandle s.stdout st t)).1, hw]
      simp [concatAll, String.append_assoc]
    · intro i hi
      rw [step, (ih (writeHandle s.stdout st t)).2 i hi, hw]
      simp [hi]

/-- C10: when `sys.stdout` already holds some other `StringIO` instance `j`,
`override_std` leaves it installed (this instance's funnel `c.outId` is not
swapped in), every write inside the scope lands in the pre-existing buffer
`j` while this instance's captured stdout records nothing; the same guard
applies to stderr; and when both handles are already `StringIO`,
`override_std` is a complete no-op on the process state. The iocage variant
behaves the same for any flag settings. -/
theorem override_std_noop_when_capture_active
    (c : CaptureIds) (s : SysStd) (j : Nat)
    (hout : s.stdout = .stringIOBuf j) (hne : j ≠ c.outId) :
    (override_std c s).stdout = .stringIOBuf j ∧
    (∀ (st : Nat → String) (outs : List String),
      runPrints (override_std c s) st outs c.outId = st c.outId ∧
      runPrints (override_std c s) st outs j = st j ++ concatAll outs) ∧
    (∀ k, s.stderr = .stringIOBuf k → (override_std c s).stderr = .stringIOBuf k) ∧
    (s.stderr.isStringIOInst = true → override_std c s = s) ∧
    (∀ (en_out en_err : Bool) (sin : Option String) (fid : Nat),
      (iocage_override_std c en_out en_err sin fid s).stdout = .stringIOBuf j) := by
  have h1 : (override_std c s).stdout = .stringIOBuf j := by
    simp [override_std, hout, StdHandle.isStringIOInst]
  refine ⟨h1, ?_, ?_, ?_, ?_⟩
  · intro st outs
    have hr := runPrints_strio j (override_std c s) h1 outs st
    exact ⟨hr.2 c.outId (Ne.symm hne), hr.1⟩
  · intro k hk
    simp [override_std, hk, StdHandle.isStringIOInst]
  · intro herr
    have hso : s.stdout.isStringIOInst = true := by rw [hout]; rfl
    simp [override_std, hso, herr]
  · intro en_out en_err sin fid
    simp [iocage_override_std, hout, StdHandle.isStringIOInst]

/-- C10 witness: a foreign `StringIO` (identity 0) is installed as stdout,
this capture instance uses funnels 1 and 2; after the writes `"a"`, `"b"`
inside the scope, the instance's funnel 1 still holds `""` and buffer 0 holds
everything. -/
theorem override_std_noop_when_capture_active_witness :
    (override_std ⟨1, 2⟩ ⟨.stringIOBuf 0, .stringIOBuf 5, .realStd 9⟩).stdout = .stringIOBuf 0 ∧
    runPrints (override_std ⟨1, 2⟩ ⟨.stringIOBuf 0, .stringIOBuf 5, .realStd 9⟩)
      (fun _ => "") ["a", "b"] 1 = "" ∧
    runPrints (override_std ⟨1, 2⟩ ⟨.stringIOBuf 0, .stringIOBuf 5, .realStd 9⟩)
      (fun _ => "") ["a", "b"] 0 = "" ++ concatAll ["a", "b"] := by
  have h := override_std_noop_when_capture_active ⟨1, 2⟩
    ⟨.stringIOBuf 0, .stringIOBuf 5, .realStd 9⟩ 0 rfl (by decide)
  exact ⟨h.1, (h.2.1 (fun _ => "") ["a", "b"]).1, (h.2.1 (fun _ => "") ["a", "b"]).2⟩

end SecurePy
